import Mathlib

/-!
# Verification of the Synova AI backend (`src/main.py`)

A shallow embedding of the query-processing API server: SHA-256 password
hashing, the canned-response generator, the free-tier rate limiter, and the
register/login/query endpoints, together with proofs of the spec's testable
properties.

Machine integers are modelled as `Nat` with explicit reduction `% 2^32`
where the SHA-256 compression overflows.  Dates are modelled as `Nat` day
numbers (the code only ever compares `datetime` values via `.date()`).
Randomness (`random.uniform`) is modelled by an explicit sampler function
carried in an `Env` record, constrained in theorems by `ValidSampler`.
-/

namespace Synova

/-! ## SHA-256 (embedding of `hashlib.sha256(...).hexdigest()`) -/

/-- 2^32, the word modulus. -/
def w32 : Nat := 4294967296

/-- Right rotation of a 32-bit word. -/
def rotr (k x : Nat) : Nat := ((x >>> k) ||| (x <<< (32 - k))) % w32

def smallSigma0 (x : Nat) : Nat := rotr 7 x ^^^ rotr 18 x ^^^ (x >>> 3)

def smallSigma1 (x : Nat) : Nat := rotr 17 x ^^^ rotr 19 x ^^^ (x >>> 10)

def bigSigma0 (x : Nat) : Nat := rotr 2 x ^^^ rotr 13 x ^^^ rotr 22 x

def bigSigma1 (x : Nat) : Nat := rotr 6 x ^^^ rotr 11 x ^^^ rotr 25 x

def chFn (e f g : Nat) : Nat := (e &&& f) ^^^ ((e ^^^ 4294967295) &&& g)

def majFn (a b c : Nat) : Nat := (a &&& b) ^^^ (a &&& c) ^^^ (b &&& c)

/-- The 64 SHA-256 round constants. -/
def kConst : List Nat :=
  [1116352408, 1899447441, 3049323471, 3921009573, 961987163,
   1508970993, 2453635748, 2870763221, 3624381080, 310598401,
   607225278, 1426881987, 1925078388, 2162078206, 2614888103,
   3248222580, 3835390401, 4022224774, 264347078, 604807628,
   770255983, 1249150122, 1555081692, 1996064986, 2554220882,
   2821834349, 2952996808, 3210313671, 3336571891, 3584528711,
   113926993, 338241895, 666307205, 773529912, 1294757372,
   1396182291, 1695183700, 1986661051, 2177026350, 2456956037,
   2730485921, 2820302411, 3259730800, 3345764771, 3516065817,
   3600352804, 4094571909, 275423344, 430227734, 506948616,
   659060556, 883997877, 958139571, 1322822218, 1537002063,
   1747873779, 1955562222, 2024104815, 2227730452, 2361852424,
   2428436474, 2756734187, 3204031479, 3329325298]

/-- The initial hash state. -/
def hInit : List Nat :=
  [1779033703, 3144134277, 1013904242, 2773480762,
   1359893119, 2600822924, 528734635, 1541459225]

/-- Big-endian 32-bit word number `i` of a 64-byte chunk. -/
def beWord (chunk : List Nat) (i : Nat) : Nat :=
  chunk.getD (4 * i) 0 * 16777216 + chunk.getD (4 * i + 1) 0 * 65536 +
    chunk.getD (4 * i + 2) 0 * 256 + chunk.getD (4 * i + 3) 0

/-- One message-schedule extension step: append word `w[t]` for `t ≥ 16`. -/
def extendStep (w : List Nat) : List Nat :=
  w ++ [(smallSigma1 (w.getD (w.length - 2) 0) + w.getD (w.length - 7) 0 +
         smallSigma0 (w.getD (w.length - 15) 0) + w.getD (w.length - 16) 0) % w32]

def buildW : Nat → List Nat → List Nat
  | 0, w => w
  | n + 1, w => buildW n (extendStep w)

/-- The eight working registers of the compression loop. -/
structure Regs where
  a : Nat
  b : Nat
  c : Nat
  d : Nat
  e : Nat
  f : Nat
  g : Nat
  h : Nat
deriving DecidableEq, Repr

/-- One round of the compression loop; `wk` is `w[t] + k[t]`. -/
def compressStep (r : Regs) (wk : Nat) : Regs :=
  let t1 := (r.h + bigSigma1 r.e + chFn r.e r.f r.g + wk) % w32
  let t2 := (bigSigma0 r.a + majFn r.a r.b r.c) % w32
  { a := (t1 + t2) % w32, b := r.a, c := r.b, d := r.c,
    e := (r.d + t1) % w32, f := r.e, g := r.f, h := r.g }

/-- Compress one 64-byte chunk into the running hash state. -/
def compressChunk (hs : List Nat) (chunk : List Nat) : List Nat :=
  let w0 := (List.range 16).map (beWord chunk)
  let w := buildW 48 w0
  let r0 : Regs :=
    { a := hs.getD 0 0, b := hs.getD 1 0, c := hs.getD 2 0, d := hs.getD 3 0,
      e := hs.getD 4 0, f := hs.getD 5 0, g := hs.getD 6 0, h := hs.getD 7 0 }
  let rf := (List.zipWith (· + ·) w kConst).foldl compressStep r0
  List.zipWith (fun x y => (x + y) % w32) hs
    [rf.a, rf.b, rf.c, rf.d, rf.e, rf.f, rf.g, rf.h]

/-- Big-endian byte expansion of `n` into `k` bytes (most significant first). -/
def beBytes (k n : Nat) : List Nat :=
  (List.range k).map (fun i => (n >>> (8 * (k - 1 - i))) &&& 255)

/-- SHA-256 message padding: `0x80`, zeros to 56 mod 64, 64-bit bit length. -/
def shaPad (msg : List Nat) : List Nat :=
  let l := msg.length
  msg ++ [128] ++ List.replicate ((119 - l % 64) % 64) 0 ++ beBytes 8 (8 * l)

def processChunks : Nat → List Nat → List Nat → List Nat
  | 0, _, hs => hs
  | n + 1, bytes, hs => processChunks n (bytes.drop 64) (compressChunk hs (bytes.take 64))

/-- SHA-256 of a byte sequence, as the eight 32-bit hash words. -/
def sha256words (msg : List Nat) : List Nat :=
  let padded := shaPad msg
  processChunks (padded.length / 64) padded hInit

def hexChar (n : Nat) : Char :=
  if n < 10 then Char.ofNat (48 + n) else Char.ofNat (87 + n)

/-- Lower-case hex rendering of a 32-bit word, 8 digits, most significant first. -/
def wordHex (n : Nat) : List Char :=
  (List.range 8).map (fun i => hexChar ((n >>> (4 * (7 - i))) &&& 15))

/-- UTF-8 encoding of one code point (Python's `str.encode()`). -/
def encodeChar (n : Nat) : List Nat :=
  if n < 128 then [n]
  else if n < 2048 then [192 ||| (n >>> 6), 128 ||| (n &&& 63)]
  else if n < 65536 then
    [224 ||| (n >>> 12), 128 ||| ((n >>> 6) &&& 63), 128 ||| (n &&& 63)]
  else
    [240 ||| (n >>> 18), 128 ||| ((n >>> 12) &&& 63),
     128 ||| ((n >>> 6) &&& 63), 128 ||| (n &&& 63)]

/-- The UTF-8 bytes of a string (Python `password.encode()`). -/
def strBytes (s : String) : List Nat :=
  s.data.foldr (fun c acc => encodeChar c.toNat ++ acc) []

/-- `hashlib.sha256(s.encode()).hexdigest()`. -/
def sha256hex (s : String) : String :=
  String.mk ((sha256words (strBytes s)).foldr (fun wrd acc => wordHex wrd ++ acc) [])

/-- `main.py` line 151: `hash_password(password)`. -/
def hash_password (password : String) : String :=
  sha256hex password

end Synova

namespace Synova

/-! ## String helpers (Python `in` on `str`, `str.lower`) -/

/-- `needle` is a prefix of `hay` (on code-point lists). -/
def prefixAt : List Char → List Char → Bool
  | [], _ => true
  | _ :: _, [] => false
  | c :: cs, d :: ds => c == d && prefixAt cs ds

/-- Python `needle in hay` on strings: substring containment. -/
def pyInL (needle : List Char) : List Char → Bool
  | [] => prefixAt needle []
  | d :: ds => prefixAt needle (d :: ds) || pyInL needle ds

def pyIn (needle hay : String) : Bool :=
  pyInL needle.data hay.data

/-- `any(word in s for word in words)`. -/
def containsAny (s : String) (words : List String) : Bool :=
  words.any (fun w => pyIn w s)

/-- ASCII case mapping of one character. -/
def lowerChar (c : Char) : Char :=
  if 65 ≤ c.toNat ∧ c.toNat ≤ 90 then Char.ofNat (c.toNat + 32) else c

/-- Python `query.lower()`.  The keyword sets and canned strings matched
against are all ASCII, where CPython's `str.lower` is exactly this
per-character ASCII case mapping. -/
def pyLower (s : String) : String :=
  String.mk (s.data.map lowerChar)

/-! ## The canned response tables (`SynovaAI.responses`) -/

def terrestrialTable : String → Option String
  | "greeting" => some "Hello! I\x27m Synova Terrestrial, your free AI assistant. How can I help you today?"
  | "help" => some "I can help with basic questions and simple conversations. For advanced features, consider upgrading to Aerial or Celestial!"
  | "features" => some "Free tier includes: Basic AI responses, ethical guidelines, and 50 messages per day. Upgrade for more features!"
  | "upgrade" => some "Ready to unlock more power? Aerial ($19/month) offers unlimited messages and advanced reasoning. Celestial ($49/month) includes quantum predictions!"
  | "default" => some "Thank you for your question. As a free tier user, I provide basic assistance. For advanced analysis, consider upgrading!"
  | _ => none

def aerialTable : String → Option String
  | "greeting" => some "Welcome to Synova Aerial! I\x27m your advanced AI assistant with enhanced reasoning capabilities."
  | "analysis" => some "Using advanced neuro-symbolic reasoning to analyze your request..."
  | "prediction" => some "Based on temporal analysis and pattern recognition, here are my insights:"
  | "default" => some "I\x27m analyzing this with advanced AI techniques including pattern recognition and contextual reasoning."
  | _ => none

def celestialTable : String → Option String
  | "greeting" => some "Greetings! I\x27m Synova Celestial with full quantum-enhanced capabilities at your service."
  | "quantum" => some "Applying quantum-inspired algorithms for maximum prediction accuracy..."
  | "temporal" => some "Using temporal weave analysis to understand context and predict outcomes..."
  | "default" => some "Engaging full quantum-enhanced processing with neuro-symbolic fusion for optimal results."
  | _ => none

/-- `self.responses[tier]`; `none` models the `KeyError` on an unknown tier. -/
def responsesFor : String → Option (String → Option String)
  | "terrestrial" => some terrestrialTable
  | "aerial" => some aerialTable
  | "celestial" => some celestialTable
  | _ => none

/-! ## Environment: date, clock and randomness

`random.uniform a b` is modelled by an explicit sampler `uniform a b`;
theorems assume `ValidSampler` (the draw lies in `[a, b]`), which is the
contract of `random.uniform`.  `today` is the `Nat` day number of
`datetime.now().date()`, and `nowIso` the string `datetime.now().isoformat()`.
-/

structure Env where
  today : Nat
  nowIso : String
  uniform : ℚ → ℚ → ℚ

def ValidSampler (u : ℚ → ℚ → ℚ) : Prop :=
  ∀ a b : ℚ, a ≤ b → a ≤ u a b ∧ u a b ≤ b

/-- The `processing_time` dict of `generate_response`, indexed at `tier`;
`none` models the `KeyError` on an unknown tier. -/
def processingTimeFor (env : Env) : String → Option ℚ
  | "terrestrial" => some (env.uniform 2 4)
  | "aerial" => some (env.uniform 1 2)
  | "celestial" => some (env.uniform 0.5 1)
  | _ => none

/-- The `confidence` dict of `generate_response`, indexed at `tier`. -/
def confidenceFor (env : Env) : String → Option ℚ
  | "terrestrial" => some (env.uniform 0.6 0.8)
  | "aerial" => some (env.uniform 0.75 0.9)
  | "celestial" => some (env.uniform 0.85 0.95)
  | _ => none

/-! ## Errors and the response generator -/

/-- An error escaping an endpoint: either a raised `HTTPException`
(status code and detail) or an uncaught Python `KeyError`. -/
inductive PyErr where
  | http (status : Nat) (detail : String)
  | keyError (key : String)
deriving DecidableEq, Repr

/-- The dict returned by `SynovaAI.generate_response`. -/
structure GenResp where
  response : String
  confidence : ℚ
  tier : String
  processing_time : ℚ
  timestamp : String
deriving DecidableEq, Repr

/-- `SynovaAI.generate_response` (`main.py` lines 102-145).  The keyword
chain selects the response; dict indexing on an unknown tier is a
`KeyError`.  For the three known tiers every key that is indexed directly
(`greeting`, `analysis`, `quantum`, `default`) is present, so the `.getD`
defaults on those lookups are never taken; `.get(k, default)` is `getD`. -/
def generate_response (query tier : String) (env : Env) : Except PyErr GenResp :=
  match processingTimeFor env tier, confidenceFor env tier, responsesFor tier with
  | some pt, some conf, some tbl =>
    let ql := pyLower query
    let dflt := (tbl "default").getD ""
    let response :=
      if containsAny ql ["hello", "hi", "hey", "greeting"] then
        (tbl "greeting").getD ""
      else if containsAny ql ["help", "what can you do"] then
        (tbl "help").getD dflt
      else if containsAny ql ["feature", "upgrade", "tier"] then
        (tbl "upgrade").getD dflt
      else if tier == "aerial" && containsAny ql ["analyze", "analysis"] then
        (tbl "analysis").getD ""
      else if tier == "celestial" && containsAny ql ["quantum", "predict"] then
        (tbl "quantum").getD ""
      else dflt
    Except.ok { response := response, confidence := conf, tier := tier,
                processing_time := pt, timestamp := env.nowIso }
  | _, _, _ => Except.error (PyErr.keyError tier)

end Synova

namespace Synova

/-! ## The database model (`synova.db`)

`users` and `messages` are row lists in insertion order.  `nextUserId`
models SQLite's `cursor.lastrowid` assignment for `INTEGER PRIMARY KEY`.
`last_reset` keeps only the `.date()` day number, the sole projection the
code ever applies to it. -/

structure User where
  id : Nat
  email : String
  password_hash : String
  tier : String
  message_count : Nat
  last_reset : Nat
deriving DecidableEq, Repr

structure Msg where
  user_id : Nat
  message : String
  response : String
  tier : String
deriving DecidableEq, Repr

structure DB where
  users : List User
  messages : List Msg
  nextUserId : Nat
deriving DecidableEq, Repr

/-- `SELECT ... FROM users WHERE id = ?` with `fetchone()`. -/
def findUserById (db : DB) (uid : Nat) : Option User :=
  db.users.find? (fun u => u.id == uid)

/-- `SELECT ... FROM users WHERE email = ?` with `fetchone()`. -/
def findUserByEmail (db : DB) (email : String) : Option User :=
  db.users.find? (fun u => u.email == email)

/-- Python truthiness of `request.user_id` (`Optional[int]`): `None` and
`0` are falsy. -/
def pyTruthy : Option Nat → Bool
  | none => false
  | some n => n != 0

/-! ## The rate limiter (`verify_user_limits`, `main.py` lines 154-181) -/

/-- `verify_user_limits(user_id, tier)`; `today` is `datetime.now().date()`.
Returns the boolean verdict and the possibly-updated database (the
new-day reset is committed before the counter comparison). -/
def verify_user_limits (user_id : Nat) (tier : String) (today : Nat) (db : DB) :
    Bool × DB :=
  if tier != "terrestrial" then (true, db)
  else
    match findUserById db user_id with
    | none => (false, db)
    | some u =>
      let st :=
        if today > u.last_reset then
          (0, { db with users := db.users.map (fun v =>
                  if v.id == user_id then
                    { v with message_count := 0, last_reset := today }
                  else v) })
        else (u.message_count, db)
      (decide (st.1 < 50), st.2)

/-! ## The endpoints -/

structure QueryRequest where
  query : String
  tier : String := "terrestrial"
  user_id : Option Nat := none
deriving DecidableEq, Repr

structure QueryOk where
  success : Bool
  data : GenResp
deriving DecidableEq, Repr

/-- `max_lengths` dict of `process_query`; `none` models the `KeyError`
raised by `max_lengths[request.tier]` on an unknown tier. -/
def max_lengths : String → Option Nat
  | "terrestrial" => some 200
  | "aerial" => some 2000
  | "celestial" => some 8000
  | _ => none

/-- `POST /api/query` (`process_query`, `main.py` lines 190-241).  Returns
the endpoint outcome and the resulting database.  The `KeyError` from the
length-validation dict indexing escapes before the `try` block; inside the
`try`, any exception is mapped to an HTTP 500 whose detail echoes the
exception text. -/
def process_query (req : QueryRequest) (env : Env) (db : DB) :
    Except PyErr QueryOk × DB :=
  match max_lengths req.tier with
  | none => (Except.error (PyErr.keyError req.tier), db)
  | some maxLen =>
    if req.query.length > maxLen then
      (Except.error (PyErr.http 400 ("Query too long for " ++ req.tier ++
        " tier. Maximum " ++ toString maxLen ++ " characters.")), db)
    else
      let rate :=
        if pyTruthy req.user_id && req.tier == "terrestrial" then
          verify_user_limits (req.user_id.getD 0) req.tier env.today db
        else (true, db)
      if rate.1 = false then
        (Except.error (PyErr.http 429
          "Daily message limit reached. Please upgrade or try again tomorrow."), rate.2)
      else
        match generate_response req.query req.tier env with
        | Except.error e =>
          (Except.error (PyErr.http 500 ("AI processing error: " ++
            (match e with
             | PyErr.keyError k => k
             | PyErr.http _ d => d))), rate.2)
        | Except.ok ai =>
          let db2 :=
            if pyTruthy req.user_id then
              let uid := req.user_id.getD 0
              let dbm := { rate.2 with messages := rate.2.messages ++
                [{ user_id := uid, message := req.query,
                   response := ai.response, tier := req.tier }] }
              if req.tier == "terrestrial" then
                { dbm with users := dbm.users.map (fun u =>
                    if u.id == uid then
                      { u with message_count := u.message_count + 1 }
                    else u) }
              else dbm
            else rate.2
          (Except.ok { success := true, data := ai }, db2)

structure RegOk where
  success : Bool
  message : String
  user_id : Nat
deriving DecidableEq, Repr

/-- `POST /api/register` (`register_user`, `main.py` lines 243-271).
A new row takes the schema defaults `tier='terrestrial'`,
`message_count=0`, `last_reset=CURRENT_TIMESTAMP`. -/
def register_user (email password : String) (env : Env) (db : DB) :
    Except PyErr RegOk × DB :=
  match findUserByEmail db email with
  | some _ => (Except.error (PyErr.http 400 "User already exists"), db)
  | none =>
    let password_hash := hash_password password
    let uid := db.nextUserId
    let nu : User := { id := uid, email := email, password_hash := password_hash,
                       tier := "terrestrial", message_count := 0,
                       last_reset := env.today }
    (Except.ok { success := true, message := "User registered successfully",
                 user_id := uid },
     { db with users := db.users ++ [nu], nextUserId := uid + 1 })

structure LoginOk where
  success : Bool
  user_id : Nat
  tier : String
  message_count : Nat
deriving DecidableEq, Repr

/-- `POST /api/login` (`login_user`, `main.py` lines 273-299): one lookup
on `email = ? AND password_hash = ?`; a miss of either kind yields the
same 401 response. -/
def login_user (email password : String) (db : DB) : Except PyErr LoginOk × DB :=
  let password_hash := hash_password password
  match db.users.find? (fun u => u.email == email &&
          u.password_hash == password_hash) with
  | none => (Except.error (PyErr.http 401 "Invalid credentials"), db)
  | some u => (Except.ok { success := true, user_id := u.id, tier := u.tier,
                           message_count := u.message_count }, db)

end Synova

namespace Synova

/-! ## Spec-side selection algorithm (for the refinement claim about
`generate_response`)

`specSelect` is written from the specification's words (§4.1): lowercase
the text and test fixed keyword sets in the fixed priority order
greeting > help > upgrade-inquiry > tier-specific keyword (analysis for
the mid tier; quantum/predict for the top tier) > default, returning the
first matching tier response string (a tier without a string for the
matched category falls back to its default). -/
def specSelect (query tier : String) : String :=
  let ql := pyLower query
  match responsesFor tier with
  | none => ""
  | some tbl =>
    let dflt := (tbl "default").getD ""
    if containsAny ql ["hello", "hi", "hey", "greeting"] then
      (tbl "greeting").getD ""
    else if containsAny ql ["help", "what can you do"] then
      (tbl "help").getD dflt
    else if containsAny ql ["feature", "upgrade", "tier"] then
      (tbl "upgrade").getD dflt
    else if tier == "aerial" && containsAny ql ["analyze", "analysis"] then
      (tbl "analysis").getD ""
    else if tier == "celestial" && containsAny ql ["quantum", "predict"] then
      (tbl "quantum").getD ""
    else dflt

/-! ## Iterated queries (for the daily-quota property) -/

/-- Run the same request `n` times in sequence; the boolean is `true` iff
every call succeeded.  A failing call stops the run. -/
def iterQuery (req : QueryRequest) (env : Env) : Nat → DB → Bool × DB
  | 0, db => (true, db)
  | n + 1, db =>
    match process_query req env db with
    | (Except.ok _, db') => iterQuery req env n db'
    | (Except.error _, db') => (false, db')

end Synova

namespace Synova

/-! ## Shared concrete fixtures for witnesses and counterexamples -/

/-- A deterministic sampler that always draws the lower endpoint. -/
def envW : Env := { today := 10, nowIso := "2025-01-01T00:00:00", uniform := fun a _ => a }

/-- The empty freshly-initialised database. -/
def dbW : DB := { users := [], messages := [], nextUserId := 1 }

/-- A registered user whose password is `"pw"`. -/
def uA : User := { id := 1, email := "a@x.com", password_hash := hash_password "pw",
                   tier := "terrestrial", message_count := 0, last_reset := 10 }

/-- A database holding just `uA`. -/
def dbU : DB := { users := [uA], messages := [], nextUserId := 2 }

/-- `Except.ok`-ness of an endpoint outcome. -/
def pyOk : Except PyErr α → Bool
  | Except.ok _ => true
  | Except.error _ => false

/-! ## C2: over-long queries are rejected before anything else happens -/

/-- C2: for every tier and query whose length exceeds the tier's maximum
(200 base / 2000 mid / 8000 top), `process_query` returns the HTTP 400
validation error and leaves the database untouched — so no response is
generated and no row is written. -/
theorem query_too_long_rejected (req : QueryRequest) (env : Env) (db : DB)
    (maxLen : Nat) (hm : max_lengths req.tier = some maxLen)
    (hl : req.query.length > maxLen) :
    process_query req env db =
      (Except.error (PyErr.http 400 ("Query too long for " ++ req.tier ++
        " tier. Maximum " ++ toString maxLen ++ " characters.")), db) ∧
    max_lengths "terrestrial" = some 200 ∧ max_lengths "aerial" = some 2000 ∧
    max_lengths "celestial" = some 8000 := by
  refine ⟨?_, rfl, rfl, rfl⟩
  simp only [process_query, hm, if_pos hl]

set_option maxRecDepth 4096 in
/-- Witness for C2 at a concrete 201-character base-tier query. -/
theorem query_too_long_rejected_witness :
    process_query { query := String.mk (List.replicate 201 'a'),
                    tier := "terrestrial", user_id := none } envW dbW =
      (Except.error (PyErr.http 400
        "Query too long for terrestrial tier. Maximum 200 characters."), dbW) ∧
    max_lengths "terrestrial" = some 200 ∧ max_lengths "aerial" = some 2000 ∧
    max_lengths "celestial" = some 8000 :=
  query_too_long_rejected _ envW dbW 200 rfl (by decide)

/-! ## C5: an unknown tier escapes as an uncaught `KeyError` -/

/-- C5: a request whose tier is none of the three known tiers makes
`process_query` fail with the uncaught `KeyError` from
`max_lengths[request.tier]` (outside its `try`), not with any of the
documented HTTP error responses, and the database is untouched.  The
second conjunct records that a `KeyError` is not an `HTTPException` of
any status/detail. -/
theorem unknown_tier_uncaught_keyerror (req : QueryRequest) (env : Env) (db : DB)
    (h1 : req.tier ≠ "terrestrial") (h2 : req.tier ≠ "aerial")
    (h3 : req.tier ≠ "celestial") :
    process_query req env db = (Except.error (PyErr.keyError req.tier), db) ∧
    ∀ s d, PyErr.keyError req.tier ≠ PyErr.http s d := by
  have hm : max_lengths req.tier = none := by
    unfold max_lengths
    split <;> simp_all
  refine ⟨?_, fun s d h => PyErr.noConfusion h⟩
  simp only [process_query, hm]

/-- Witness for C5 at the concrete tier `"galactic"`. -/
theorem unknown_tier_uncaught_keyerror_witness :
    process_query { query := "x", tier := "galactic", user_id := some 1 } envW dbU =
      (Except.error (PyErr.keyError "galactic"), dbU) ∧
    ∀ s d, PyErr.keyError "galactic" ≠ PyErr.http s d :=
  unknown_tier_uncaught_keyerror _ envW dbU (by decide) (by decide) (by decide)

end Synova

namespace Synova

/-! ## C6: duplicate registration conflicts; fresh registration succeeds -/

/-- C6: registering an email already present in `users` is rejected with
the 400 conflict error and the database is unchanged (no new row); a
registration under a fresh email succeeds, returns the next user id, and
appends exactly one row with the schema defaults. -/
theorem register_conflict_and_fresh (db : DB) (email pw : String) (env : Env) :
    (∀ u, findUserByEmail db email = some u →
       register_user email pw env db =
         (Except.error (PyErr.http 400 "User already exists"), db)) ∧
    (findUserByEmail db email = none →
       register_user email pw env db =
         (Except.ok { success := true, message := "User registered successfully",
                      user_id := db.nextUserId },
          { db with
            users := db.users ++
              [{ id := db.nextUserId, email := email,
                 password_hash := hash_password pw, tier := "terrestrial",
                 message_count := 0, last_reset := env.today }],
            nextUserId := db.nextUserId + 1 })) := by
  constructor
  · intro u hu
    simp only [register_user, hu]
  · intro hn
    simp only [register_user, hn]

/-- Witness for C6: the duplicate `"a@x.com"` conflicts on `dbU` and the
fresh `"b@x.com"` succeeds with the next id `2`. -/
theorem register_conflict_and_fresh_witness :
    register_user "a@x.com" "pw2" envW dbU =
      (Except.error (PyErr.http 400 "User already exists"), dbU) ∧
    register_user "b@x.com" "pw" envW dbU =
      (Except.ok { success := true, message := "User registered successfully",
                   user_id := 2 },
       { dbU with
         users := dbU.users ++
           [{ id := 2, email := "b@x.com", password_hash := hash_password "pw",
              tier := "terrestrial", message_count := 0, last_reset := 10 }],
         nextUserId := 3 }) :=
  ⟨(register_conflict_and_fresh dbU "a@x.com" "pw2" envW).1 uA rfl,
   (register_conflict_and_fresh dbU "b@x.com" "pw" envW).2 rfl⟩

/-! ## C7: wrong password is rejected uniformly -/

/-- C7: whenever no stored user has both the given email and a credential
hash matching the attempted password — whether the email is absent
altogether or present with a different password — `login_user` returns
the same 401 auth error and leaves the database unchanged. -/
theorem wrong_password_rejected (db : DB) (email pw : String)
    (h : ∀ u ∈ db.users, u.email = email → u.password_hash ≠ hash_password pw) :
    login_user email pw db = (Except.error (PyErr.http 401 "Invalid credentials"), db) := by
  have hn : db.users.find? (fun u => u.email == email &&
      u.password_hash == hash_password pw) = none := by
    rw [List.find?_eq_none]
    intro u hu
    simp only [Bool.and_eq_true, beq_iff_eq, not_and]
    exact fun he => h u hu he
  simp only [login_user, hn]

/-- Witness for C7: logging in as `"a@x.com"` (stored password `"pw"`)
with the wrong password `"wrong"`, and as the absent `"ghost@x.com"`,
both hit the same 401. -/
theorem wrong_password_rejected_witness :
    login_user "a@x.com" "wrong" dbU =
      (Except.error (PyErr.http 401 "Invalid credentials"), dbU) ∧
    login_user "ghost@x.com" "pw" dbU =
      (Except.error (PyErr.http 401 "Invalid credentials"), dbU) :=
  ⟨wrong_password_rejected dbU "a@x.com" "wrong"
    (by
      intro u hu he
      have hu' : u = uA := by simpa [dbU] using hu
      subst hu'
      exact (by decide : hash_password "pw" ≠ hash_password "wrong")),
   wrong_password_rejected dbU "ghost@x.com" "pw"
    (by
      intro u hu he
      have hu' : u = uA := by simpa [dbU] using hu
      subst hu'
      exact absurd he (by decide))⟩

end Synova

namespace Synova

/-! ## C3: the stored credential is hashed but NOT salted -/

/-- Counterexample to C3: registering the two distinct users
`"alice@example.com"` and `"bob@example.com"` with the same password
`"hunter2"` stores literally identical credential hashes (the emails
differ, so the users are distinct). -/
theorem salted_hash_counterexample :
    ((register_user "bob@example.com" "hunter2" envW
        (register_user "alice@example.com" "hunter2" envW dbW).2).2.users.map
      User.password_hash) =
      [hash_password "hunter2", hash_password "hunter2"] ∧
    ((register_user "bob@example.com" "hunter2" envW
        (register_user "alice@example.com" "hunter2" envW dbW).2).2.users.map
      User.email) = ["alice@example.com", "bob@example.com"] ∧
    "alice@example.com" ≠ "bob@example.com" :=
  ⟨rfl, rfl, by decide⟩

/-- C3 (amended): the stored credential is the unsalted SHA-256 of the
password alone — a successful registration appends a row whose
`password_hash` is exactly `hash_password password`, so any two
registrations with the same password store identical hashes. -/
theorem stored_hash_unsalted (db : DB) (email pw : String) (env : Env)
    (h : findUserByEmail db email = none) :
    ∃ u : User, (register_user email pw env db).2.users = db.users ++ [u] ∧
      u.password_hash = hash_password pw ∧ u.email = email := by
  refine ⟨{ id := db.nextUserId, email := email, password_hash := hash_password pw,
            tier := "terrestrial", message_count := 0, last_reset := env.today },
          ?_, rfl, rfl⟩
  simp only [register_user, h]

/-- Witness for the amended C3 at a concrete fresh registration. -/
theorem stored_hash_unsalted_witness :
    ∃ u : User, (register_user "alice@example.com" "hunter2" envW dbW).2.users =
        dbW.users ++ [u] ∧
      u.password_hash = hash_password "hunter2" ∧ u.email = "alice@example.com" :=
  stored_hash_unsalted dbW "alice@example.com" "hunter2" envW rfl

end Synova

namespace Synova

/-! ## C8: the keyword-priority selection algorithm -/

/-- Helper: a successful `generate_response` draws its confidence from the
tier's entry of the `confidence` dict. -/
lemma generate_response_confidence (q tier : String) (env : Env) (r : GenResp)
    (h : generate_response q tier env = Except.ok r) :
    confidenceFor env tier = some r.confidence := by
  unfold generate_response at h
  split at h
  · cases h
    assumption
  · exact absurd h (by simp)

/-- C8: for every query and each of the three valid tiers,
`generate_response` succeeds and its response string equals the spec-side
selection `specSelect` — lowercase the text, test the fixed keyword sets in
priority order greeting > help > upgrade-inquiry > tier-specific keyword
(analysis for the mid tier, quantum/predict for the top tier) > default,
returning the first matching tier response string. -/
theorem generate_response_matches_spec (q tier : String) (env : Env)
    (h : tier = "terrestrial" ∨ tier = "aerial" ∨ tier = "celestial") :
    ∃ r, generate_response q tier env = Except.ok r ∧
      r.response = specSelect q tier := by
  rcases h with rfl | rfl | rfl <;> exact ⟨_, rfl, rfl⟩

/-- Witness for C8 at the query `"hello"` on the base tier. -/
theorem generate_response_matches_spec_witness :
    ∃ r, generate_response "hello" "terrestrial" envW = Except.ok r ∧
      r.response = specSelect "hello" "terrestrial" :=
  generate_response_matches_spec "hello" "terrestrial" envW (Or.inl rfl)

/-! ## C10: the base-tier greeting example and the confidence contract -/

/-- Helper: every confidence the dict can yield lies in `[0, 1]`, given
that `random.uniform a b` draws within `[a, b]`. -/
lemma confidenceFor_bounds (env : Env) (hu : ValidSampler env.uniform)
    (tier : String) (conf : ℚ) (h : confidenceFor env tier = some conf) :
    0 ≤ conf ∧ conf ≤ 1 := by
  unfold confidenceFor at h
  split at h
  · cases h
    have hb := hu 0.6 0.8 (by norm_num)
    exact ⟨le_trans (by norm_num) hb.1, le_trans hb.2 (by norm_num)⟩
  · cases h
    have hb := hu 0.75 0.9 (by norm_num)
    exact ⟨le_trans (by norm_num) hb.1, le_trans hb.2 (by norm_num)⟩
  · cases h
    have hb := hu 0.85 0.95 (by norm_num)
    exact ⟨le_trans (by norm_num) hb.1, le_trans hb.2 (by norm_num)⟩
  · exact absurd h (by simp)

/-- C10: on the base tier, the query `"hello"` yields exactly the fixed
base-tier greeting string with confidence drawn from `[0.6, 0.8]`; and for
every query and tier, any successful response's confidence lies in
`[0, 1]`. -/
theorem hello_greeting_and_confidence (env : Env) (hu : ValidSampler env.uniform) :
    (generate_response "hello" "terrestrial" env = Except.ok
       { response := "Hello! I\x27m Synova Terrestrial, your free AI assistant. How can I help you today?",
         confidence := env.uniform 0.6 0.8, tier := "terrestrial",
         processing_time := env.uniform 2 4, timestamp := env.nowIso } ∧
     0.6 ≤ env.uniform 0.6 0.8 ∧ env.uniform 0.6 0.8 ≤ 0.8) ∧
    (∀ q tier r, generate_response q tier env = Except.ok r →
       0 ≤ r.confidence ∧ r.confidence ≤ 1) := by
  refine ⟨⟨rfl, (hu 0.6 0.8 (by norm_num)).1, (hu 0.6 0.8 (by norm_num)).2⟩, ?_⟩
  intro q tier r h
  exact confidenceFor_bounds env hu tier r.confidence
    (generate_response_confidence q tier env r h)

/-- Witness for C10 with the lower-endpoint sampler `envW`. -/
theorem hello_greeting_and_confidence_witness :
    generate_response "hello" "terrestrial" envW = Except.ok
      { response := "Hello! I\x27m Synova Terrestrial, your free AI assistant. How can I help you today?",
        confidence := envW.uniform 0.6 0.8, tier := "terrestrial",
        processing_time := envW.uniform 2 4, timestamp := envW.nowIso } ∧
    0.6 ≤ envW.uniform 0.6 0.8 ∧ envW.uniform 0.6 0.8 ≤ 0.8 :=
  (hello_greeting_and_confidence envW
    (fun a _ hab => ⟨le_refl a, hab⟩)).1

end Synova

namespace Synova

/-! ## C4: a new calendar day resets the counter before the cap check -/

/-- Helper: `find?` on id commutes with mapping an id-preserving update
over the user table. -/
lemma find?_id_map (l : List User) (uid : Nat) (f : User → User)
    (hf : ∀ u, (f u).id = u.id) :
    List.find? (fun u => u.id == uid) (l.map f) =
      (List.find? (fun u => u.id == uid) l).map f := by
  induction l with
  | nil => rfl
  | cons a t ih =>
    simp only [List.map_cons, List.find?]
    rw [hf a]
    cases hpa : (a.id == uid) <;> simp [hpa, ih]

/-- C4: when the rate limiter runs on a day strictly after the stored
`last_reset` of a free-tier user, it commits `message_count = 0` and
`last_reset = today` to the store and returns `true` — the comparison
against the daily cap sees the reset (zero) counter, whatever the old
count was. -/
theorem new_day_resets_counter (db : DB) (uid today : Nat) (u : User)
    (hf : findUserById db uid = some u) (hd : today > u.last_reset) :
    (verify_user_limits uid "terrestrial" today db).1 = true ∧
    findUserById (verify_user_limits uid "terrestrial" today db).2 uid =
      some { u with message_count := 0, last_reset := today } := by
  unfold findUserById at hf
  have hid : (u.id == uid) = true :=
    @List.find?_some _ (fun v => v.id == uid) u db.users hf
  simp only [verify_user_limits, findUserById, hf, bne_self_eq_false,
    Bool.false_eq_true, if_false, if_pos hd]
  refine ⟨rfl, ?_⟩
  rw [find?_id_map _ uid _ ?hfid]
  case hfid =>
    intro v
    by_cases h : (v.id == uid) = true <;> simp [h]
  rw [hf]
  have hid2 : u.id = uid := by simpa using hid
  simp [hid2]

/-- A free-tier user who exhausted the cap yesterday (`last_reset = 10`,
`message_count = 75`). -/
def uB : User := { id := 1, email := "b@x.com", password_hash := hash_password "pw",
                   tier := "terrestrial", message_count := 75, last_reset := 10 }

/-- A database holding just `uB`. -/
def dbB : DB := { users := [uB], messages := [], nextUserId := 2 }

/-- Witness for C4: on day 11 the limiter resets `uB`'s stale counter of
75 to zero and passes. -/
theorem new_day_resets_counter_witness :
    (verify_user_limits 1 "terrestrial" 11 dbB).1 = true ∧
    findUserById (verify_user_limits 1 "terrestrial" 11 dbB).2 1 =
      some { uB with message_count := 0, last_reset := 11 } :=
  new_day_resets_counter dbB 1 11 uB rfl (by decide)

end Synova

namespace Synova

/-! ## C9: the message log is append-only -/

/-- Helper: the rate limiter never touches the message table. -/
lemma verify_user_limits_messages (uid : Nat) (tier : String) (today : Nat) (db : DB) :
    (verify_user_limits uid tier today db).2.messages = db.messages := by
  unfold verify_user_limits
  split
  · rfl
  · split
    · rfl
    · dsimp only
      split <;> rfl

/-- Helper: the exact message-table behaviour of `process_query` — the
table only ever grows at the tail, by exactly one row on a successful
query with a truthy user id and by nothing otherwise. -/
lemma process_query_messages (req : QueryRequest) (env : Env) (db : DB) :
    (process_query req env db).2.messages =
      db.messages ++
        (match (process_query req env db).1 with
         | Except.ok ok =>
           if pyTruthy req.user_id then
             [{ user_id := req.user_id.getD 0, message := req.query,
                response := ok.data.response, tier := req.tier }]
           else []
         | Except.error _ => []) := by
  rcases hml : max_lengths req.tier with _ | m
  · simp [process_query, hml]
  by_cases hlen : req.query.length > m
  · simp [process_query, hml, hlen]
  cases htr : pyTruthy req.user_id with
  | false =>
    rcases hgen : generate_response req.query req.tier env with e | ai <;>
      simp [process_query, hml, hlen, htr, hgen]
  | true =>
    by_cases htier : (req.tier == "terrestrial") = true
    · cases hrate : (verify_user_limits (req.user_id.getD 0) req.tier env.today db).1 with
      | false =>
        simp [process_query, hml, hlen, htr, htier, hrate,
          verify_user_limits_messages]
      | true =>
        rcases hgen : generate_response req.query req.tier env with e | ai <;>
          simp [process_query, hml, hlen, htr, htier, hrate, hgen,
            verify_user_limits_messages]
    · rcases hgen : generate_response req.query req.tier env with e | ai <;>
        simp [process_query, hml, hlen, htr, htier, hgen]

/-- Counterexample to C9 as stated: the request supplies the user id `0`,
the query succeeds, yet no message row is inserted — `if request.user_id:`
treats the supplied id `0` as falsy, so "a user id is supplied" does not
imply a write. -/
theorem message_inserted_once_counterexample :
    pyOk (process_query { query := "x", tier := "aerial", user_id := some 0 }
            envW dbW).1 = true ∧
    (process_query { query := "x", tier := "aerial", user_id := some 0 }
       envW dbW).2.messages = dbW.messages :=
  ⟨rfl, rfl⟩

/-- C9 (amended): the message table is an append-only log.  On every call
of `process_query` the new table is the old one extended at the tail by
exactly one row when the query succeeds with a truthy (nonzero) user id
and by nothing otherwise — in particular no existing row is ever mutated
or deleted; `register_user` and `login_user` never touch the table at
all. -/
theorem messages_append_only (req : QueryRequest) (env : Env) (db : DB)
    (email pw : String) :
    ((process_query req env db).2.messages =
      db.messages ++
        (match (process_query req env db).1 with
         | Except.ok ok =>
           if pyTruthy req.user_id then
             [{ user_id := req.user_id.getD 0, message := req.query,
                response := ok.data.response, tier := req.tier }]
           else []
         | Except.error _ => [])) ∧
    (register_user email pw env db).2.messages = db.messages ∧
    (login_user email pw db).2.messages = db.messages := by
  refine ⟨process_query_messages req env db, ?_, ?_⟩
  · unfold register_user
    split <;> rfl
  · unfold login_user
    dsimp only
    split <;> rfl

end Synova

namespace Synova

/-! ## C1: the free-tier daily quota of 50 -/

/-- The database after one successful persisted free-tier query: one
message row appended and the user's counter incremented. -/
def stepDB (q : String) (uid : Nat) (resp : String) (db : DB) : DB :=
  { db with
    users := db.users.map (fun v =>
      if v.id == uid then { v with message_count := v.message_count + 1 } else v),
    messages := db.messages ++
      [{ user_id := uid, message := q, response := resp, tier := "terrestrial" }] }

/-- Helper: one `process_query` call for a stored free-tier user whose
`last_reset` is today either succeeds and advances the state by `stepDB`
(when the counter is under 50) or returns the 429 quota error leaving the
state untouched (when the counter has reached 50). -/
lemma process_query_free_step (q : String) (uid : Nat) (env : Env) (db : DB) (u : User)
    (hu0 : uid ≠ 0) (hlen : ¬(q.length > 200))
    (hf : findUserById db uid = some u)
    (hday : u.last_reset = env.today) :
    (u.message_count < 50 →
      ∃ ai, process_query ⟨q, "terrestrial", some uid⟩ env db =
        (Except.ok { success := true, data := ai }, stepDB q uid ai.response db)) ∧
    (¬(u.message_count < 50) →
      process_query ⟨q, "terrestrial", some uid⟩ env db =
        (Except.error (PyErr.http 429
          "Daily message limit reached. Please upgrade or try again tomorrow."), db)) := by
  have htr : pyTruthy (some uid) = true := by simp [pyTruthy, hu0]
  have hver : verify_user_limits uid "terrestrial" env.today db =
      (decide (u.message_count < 50), db) := by
    simp only [verify_user_limits, hf, bne_self_eq_false, Bool.false_eq_true, if_false]
    rw [if_neg (by omega : ¬ env.today > u.last_reset)]
  obtain ⟨ai, hgen⟩ : ∃ ai, generate_response q "terrestrial" env = Except.ok ai := ⟨_, rfl⟩
  constructor
  · intro hcap
    refine ⟨ai, ?_⟩
    simp only [process_query]
    rw [show max_lengths "terrestrial" = some 200 from rfl]
    dsimp only
    rw [if_neg hlen]
    simp [htr, hver, hgen, hcap, stepDB]
  · intro hcap
    simp only [process_query]
    rw [show max_lengths "terrestrial" = some 200 from rfl]
    dsimp only
    rw [if_neg hlen]
    simp [htr, hver, hcap]

/-- Helper: `stepDB` leaves the stored user findable with its counter
incremented by one. -/
lemma findUserById_stepDB (q r : String) (uid : Nat) (db : DB) (u : User)
    (hf : findUserById db uid = some u) :
    findUserById (stepDB q uid r db) uid =
      some { u with message_count := u.message_count + 1 } := by
  unfold findUserById at hf
  have hid2 : u.id = uid := by
    simpa using @List.find?_some _ (fun v => v.id == uid) u db.users hf
  unfold findUserById stepDB
  dsimp only
  rw [find?_id_map _ uid _ (fun v => by by_cases h : (v.id == uid) = true <;> simp [h])]
  rw [hf]
  simp [hid2]

/-- Helper: `n` consecutive same-day free-tier queries starting from
counter `c` with `c + n ≤ 50` all succeed, leaving the counter at
`c + n`. -/
lemma iter_free_queries (q : String) (uid : Nat) (env : Env)
    (hu0 : uid ≠ 0) (hlen : ¬(q.length > 200)) :
    ∀ (n : Nat) (db : DB) (u : User) (c : Nat),
      findUserById db uid = some u → u.message_count = c →
      u.last_reset = env.today → c + n ≤ 50 →
      (iterQuery ⟨q, "terrestrial", some uid⟩ env n db).1 = true ∧
      ∃ u', findUserById (iterQuery ⟨q, "terrestrial", some uid⟩ env n db).2 uid = some u' ∧
        u'.message_count = c + n ∧ u'.last_reset = env.today := by
  intro n
  induction n with
  | zero =>
    intro db u c hf hc hd hcap
    exact ⟨rfl, u, hf, by omega, hd⟩
  | succ n ih =>
    intro db u c hf hc hd hcap
    obtain ⟨ai, hpq⟩ :=
      (process_query_free_step q uid env db u hu0 hlen hf hd).1 (by omega)
    have hstep : iterQuery ⟨q, "terrestrial", some uid⟩ env (n + 1) db =
        iterQuery ⟨q, "terrestrial", some uid⟩ env n (stepDB q uid ai.response db) := by
      simp [iterQuery, hpq]
    rw [hstep]
    have hf2 := findUserById_stepDB q ai.response uid db u hf
    obtain ⟨hall, u', hfind, hcnt, hday⟩ :=
      ih (stepDB q uid ai.response db) { u with message_count := u.message_count + 1 }
        (c + 1) hf2 (by simp [hc]) hd (by omega)
    exact ⟨hall, u', hfind, by omega, hday⟩

/-- C1: a stored free-tier user starting a calendar day at counter zero
gets 50 successful queries; the 51st call of `process_query` that same
day is rejected with the 429 quota error and the database is left exactly
as it was — no response is generated and nothing is written.  (The cap
the code enforces is the `message_count < 50` of `verify_user_limits`,
not the 100 advertised elsewhere; `uid ≠ 0` because `process_query` only
consults the limiter for a truthy user id.) -/
theorem free_tier_quota_after_50 (db : DB) (uid : Nat) (u : User) (env : Env)
    (q : String) (hu0 : uid ≠ 0) (hlen : ¬(q.length > 200))
    (hf : findUserById db uid = some u) (hc : u.message_count = 0)
    (hd : u.last_reset = env.today) :
    (iterQuery ⟨q, "terrestrial", some uid⟩ env 50 db).1 = true ∧
    process_query ⟨q, "terrestrial", some uid⟩ env
        (iterQuery ⟨q, "terrestrial", some uid⟩ env 50 db).2 =
      (Except.error (PyErr.http 429
        "Daily message limit reached. Please upgrade or try again tomorrow."),
       (iterQuery ⟨q, "terrestrial", some uid⟩ env 50 db).2) := by
  obtain ⟨hall, u', hf', hc', hd'⟩ :=
    iter_free_queries q uid env hu0 hlen 50 db u 0 hf hc hd (by omega)
  refine ⟨hall, ?_⟩
  exact (process_query_free_step q uid env _ u' hu0 hlen hf' hd').2 (by omega)

/-- Witness for C1: user `uA` (counter 0, last reset today) runs 50
queries `"hi"` successfully and the 51st is rejected. -/
theorem free_tier_quota_after_50_witness :
    (iterQuery ⟨"hi", "terrestrial", some 1⟩ envW 50 dbU).1 = true ∧
    process_query ⟨"hi", "terrestrial", some 1⟩ envW
        (iterQuery ⟨"hi", "terrestrial", some 1⟩ envW 50 dbU).2 =
      (Except.error (PyErr.http 429
        "Daily message limit reached. Please upgrade or try again tomorrow."),
       (iterQuery ⟨"hi", "terrestrial", some 1⟩ envW 50 dbU).2) :=
  free_tier_quota_after_50 dbU 1 uA envW "hi" (by decide) (by decide) rfl rfl rfl

end Synova
